import Mathlib

/-!
Verification development for the Global Entry appointment alert program.

The definitions below are a shallow embedding of the Python sources:
`slot_checker.py` (the `Appointment` class, `GlobalEntrySlotChecker` with
`_slots_changed`, `_process_slots`, `check_slots`), `config.py`
(`load_config`) and `main.py` (the polling-cycle notification logic).
Machine-level concerns (HTTP, logging, sleeping) are modelled by explicit
scripts of responses threaded through the state.
-/

/-! ## Calendar arithmetic

`Appointment.date` / `Appointment.time` in `slot_checker.py` parse
`start_timestamp` with `datetime.strptime(_, '%Y-%m-%dT%H:%M')`, localize
it as UTC and convert to `America/New_York` via `pytz`, then format with
`'%Y-%m-%d'` resp. `'%I:%M %p EST'`.  We embed the calendar with civil-day
counts (days since 0000-03-01) and model the `America/New_York` offset by
the post-2007 United States DST rule that `pytz` applies to modern dates:
UTC-4 from 2:00 EST on the second Sunday of March (07:00 UTC) until
2:00 EDT on the first Sunday of November (06:00 UTC), UTC-5 otherwise.
-/

def isLeapYear (y : Nat) : Bool :=
  (y % 4 == 0 && y % 100 != 0) || y % 400 == 0

def daysInMonth (y m : Nat) : Nat :=
  if m = 2 then (if isLeapYear y then 29 else 28)
  else if m = 4 ∨ m = 6 ∨ m = 9 ∨ m = 11 then 30
  else 31

/-- Days since 0000-03-01 of the civil date (y, m, d). -/
def daysFromCivil (y m d : Nat) : Nat :=
  let y' := if m ≤ 2 then y - 1 else y
  let era := y' / 400
  let yoe := y' % 400
  let mp := (m + 9) % 12
  let doy := (153 * mp + 2) / 5 + d - 1
  let doe := yoe * 365 + yoe / 4 - yoe / 100 + doy
  era * 146097 + doe

/-- Civil date (y, m, d) of a day count (days since 0000-03-01). -/
def civilFromDays (n : Nat) : Nat × Nat × Nat :=
  let era := n / 146097
  let doe := n % 146097
  let yoe := (doe - doe / 1460 + doe / 36524 - doe / 146096) / 365
  let y := yoe + era * 400
  let doy := doe - (365 * yoe + yoe / 4 - yoe / 100)
  let mp := (5 * doy + 2) / 153
  let d := doy - (153 * mp + 2) / 5 + 1
  let m := if mp < 10 then mp + 3 else mp - 9
  (if m ≤ 2 then y + 1 else y, m, d)

/-- Day of week, Sunday = 0, of a day count (0000-03-01 was a Wednesday). -/
def weekdayOf (n : Nat) : Nat := (n + 3) % 7

/-- Day count of the second Sunday of March of year `y` (US DST start). -/
def secondSundayMarch (y : Nat) : Nat :=
  let m1 := daysFromCivil y 3 1
  m1 + (7 - weekdayOf m1) % 7 + 7

/-- Day count of the first Sunday of November of year `y` (US DST end). -/
def firstSundayNov (y : Nat) : Nat :=
  let n1 := daysFromCivil y 11 1
  n1 + (7 - weekdayOf n1) % 7

/-- `America/New_York` UTC offset in minutes (240 during DST, 300 otherwise)
for the UTC instant `t` (in minutes since 0000-03-01) of year `y`. -/
def easternOffsetMinutes (y t : Nat) : Nat :=
  let dstStart := secondSundayMarch y * 1440 + 7 * 60
  let dstEnd := firstSundayNov y * 1440 + 6 * 60
  if dstStart ≤ t ∧ t < dstEnd then 240 else 300

def digitChar (n : Nat) : Char := Char.ofNat (48 + n % 10)

/-- Zero-padded two-digit decimal, as `strftime` `%m`/`%d`/`%I`/`%M`. -/
def pad2 (n : Nat) : String := String.mk [digitChar (n / 10), digitChar n]

/-- Zero-padded four-digit decimal, as `strftime` `%Y`. -/
def pad4 (n : Nat) : String :=
  String.mk [digitChar (n / 1000), digitChar (n / 100), digitChar (n / 10), digitChar n]

/-- `datetime.strptime(s, '%Y-%m-%dT%H:%M')`: parse a zero-padded
`YYYY-MM-DDTHH:MM` string into (year, month, day, hour, minute), failing
(`ValueError` in Python, `none` here) on any malformed or out-of-range
input. -/
def parseTimestamp (s : String) : Option (Nat × Nat × Nat × Nat × Nat) :=
  match s.data with
  | [y1, y2, y3, y4, c1, m1, m2, c2, d1, d2, c3, h1, h2, c4, n1, n2] =>
    if y1.isDigit ∧ y2.isDigit ∧ y3.isDigit ∧ y4.isDigit ∧
       m1.isDigit ∧ m2.isDigit ∧ d1.isDigit ∧ d2.isDigit ∧
       h1.isDigit ∧ h2.isDigit ∧ n1.isDigit ∧ n2.isDigit ∧
       c1 = '-' ∧ c2 = '-' ∧ c3 = 'T' ∧ c4 = ':' then
      let y := (y1.toNat - 48) * 1000 + (y2.toNat - 48) * 100 +
               (y3.toNat - 48) * 10 + (y4.toNat - 48)
      let mo := (m1.toNat - 48) * 10 + (m2.toNat - 48)
      let d := (d1.toNat - 48) * 10 + (d2.toNat - 48)
      let h := (h1.toNat - 48) * 10 + (h2.toNat - 48)
      let mi := (n1.toNat - 48) * 10 + (n2.toNat - 48)
      if 1 ≤ y ∧ 1 ≤ mo ∧ mo ≤ 12 ∧ 1 ≤ d ∧ d ≤ daysInMonth y mo ∧
         h ≤ 23 ∧ mi ≤ 59 then
        some (y, mo, d, h, mi)
      else none
    else none
  | _ => none

/-- The shared computation of `Appointment.date` and `Appointment.time`:
parse `start_timestamp` as UTC, convert to US Eastern, and format the date
as `%Y-%m-%d` and the time as `%I:%M %p EST` (12-hour clock with AM/PM and
a literal `EST` suffix). -/
def appointmentDateTime (ts : String) : Option (String × String) :=
  (parseTimestamp ts).map fun p =>
    match p with
    | (y, mo, d, h, mi) =>
      let t := daysFromCivil y mo d * 1440 + h * 60 + mi
      let lm := t - easternOffsetMinutes y t
      let localDate := civilFromDays (lm / 1440)
      let hh := lm % 1440 / 60
      let mm := lm % 60
      let hour12 := if hh % 12 = 0 then 12 else hh % 12
      (pad4 localDate.1 ++ "-" ++ pad2 localDate.2.1 ++ "-" ++ pad2 localDate.2.2,
       pad2 hour12 ++ ":" ++ pad2 mm ++ " " ++ (if hh < 12 then "AM" else "PM") ++ " EST")

/-- The `Appointment` value of `slot_checker.py`. -/
structure Appointment where
  location_id : String
  start_timestamp : String
  end_timestamp : String
  duration : Nat
deriving DecidableEq

/-- `Appointment.date`: Eastern local date of `start_timestamp` (UTC),
`none` when parsing raises. -/
def Appointment.date (a : Appointment) : Option String :=
  (appointmentDateTime a.start_timestamp).map Prod.fst

/-- `Appointment.time`: Eastern local time of `start_timestamp` (UTC) in
`%I:%M %p EST` format, `none` when parsing raises. -/
def Appointment.time (a : Appointment) : Option String :=
  (appointmentDateTime a.start_timestamp).map Prod.snd

/-! ## Lexicographic string order

Python compares strings by code point, lexicographically; `sorted` and
`min` over the date / time strings of `_process_slots` use exactly this
order.  We embed it directly over the character lists. -/

def charListLt : List Char → List Char → Bool
  | [], [] => false
  | [], _ :: _ => true
  | _ :: _, [] => false
  | a :: as, b :: bs =>
    if a.toNat < b.toNat then true
    else if b.toNat < a.toNat then false
    else charListLt as bs

/-- Python `a < b` on strings. -/
def strLt (a b : String) : Bool := charListLt a.data b.data

/-- Python `a <= b` on strings. -/
def strLe (a b : String) : Bool := !strLt b a

/-- Insert into an already `strLe`-sorted list, keeping it sorted. -/
def insortStr (x : String) : List String → List String
  | [] => [x]
  | y :: ys => if strLe x y then x :: y :: ys else y :: insortStr x ys

/-- Python `sorted` on a list of strings (ascending lexicographic). -/
def sortStrings (l : List String) : List String := l.foldr insortStr []

/-! ## Slot normalizer: `GlobalEntrySlotChecker._process_slots` -/

/-- A raw upstream slot record (a JSON object): `slot_data['startTimestamp']`
raises `KeyError` when absent, `slot_data.get('endTimestamp', '')` and
`slot_data.get('duration', 15)` default when absent. -/
structure RawSlot where
  startTimestamp : Option String
  endTimestamp : Option String
  duration : Option Nat
deriving DecidableEq

/-- Building the `Appointment` of a raw record and reading its `date` and
`time` properties; `none` models the exception path of the `try` block
(missing `startTimestamp` key or `strptime` failure) that drops the
record. -/
def parseSlot (r : RawSlot) : Option (String × String) :=
  r.startTimestamp.bind appointmentDateTime

/-- The `slot_info` dict emitted by `_process_slots` and stored in
`last_seen_slots`. -/
structure SlotInfo where
  location : String
  date : String
  times : List String
  location_name : String
deriving DecidableEq

/-- The static `location_names` table with its `'Location {id}'` fallback. -/
def locationNameOf (locationId : String) : String :=
  if locationId = "5140" then "JFK International Airport"
  else if locationId = "14321" then "Charlotte-Douglas International Airport"
  else if locationId = "5182" then "Daniel K. Inouye International Airport"
  else "Location " ++ locationId

/-- `slots_by_date[date].append(time)`, creating the key first when absent;
a Python dict preserves insertion order, which the association list keeps. -/
def addToGroups (d t : String) : List (String × List String) → List (String × List String)
  | [] => [(d, [t])]
  | (k, ts) :: rest =>
    if k = d then (k, ts ++ [t]) :: rest else (k, ts) :: addToGroups d t rest

/-- Python `min` over the dict keys (lexicographic on date strings). -/
def minKey : List (String × List String) → Option String
  | [] => none
  | (k, _) :: rest => some (rest.foldl (fun acc p => if strLt p.1 acc then p.1 else acc) k)

def lookupGroup (k : String) : List (String × List String) → List String
  | [] => []
  | (k', ts) :: rest => if k' = k then ts else lookupGroup k rest

/-- One step of the grouping loop of `_process_slots`. -/
def groupStep (gs : List (String × List String)) (r : RawSlot) : List (String × List String) :=
  match parseSlot r with
  | some (d, t) => addToGroups d t gs
  | none => gs

/-- `GlobalEntrySlotChecker._process_slots`: group parseable records by
Eastern date, skip records whose parse raises, and when any group exists
emit a single `slot_info` for the minimal date key with its times run
through `sorted`. -/
def processSlots (slots : List RawSlot) (locationId : String) : List SlotInfo :=
  let gs := slots.foldl groupStep []
  match minKey gs with
  | none => []
  | some earliest =>
    [{ location := locationId, date := earliest,
       times := sortStrings (lookupGroup earliest gs),
       location_name := locationNameOf locationId }]

/-! ## Change detector: `GlobalEntrySlotChecker._slots_changed`

`last_seen_slots` is a dict from location id to the last stored
`slot_info`; we embed it as an insertion-ordered association list. -/

abbrev SeenTable := List (String × SlotInfo)

def lookupTable (k : String) : SeenTable → Option SlotInfo
  | [] => none
  | (k', v) :: rest => if k' = k then some v else lookupTable k rest

/-- `self.last_seen_slots[location_id] = new_slot`: replace in place or
append. -/
def insertTable (k : String) (v : SlotInfo) : SeenTable → SeenTable
  | [] => [(k, v)]
  | (k', v') :: rest =>
    if k' = k then (k, v) :: rest else (k', v') :: insertTable k v rest

/-- `GlobalEntrySlotChecker._slots_changed`, as a pure function from the
current `last_seen_slots` table to the returned boolean and the updated
table.  With empty `new_slots` it returns `bool(last_seen_slots.get(id))`,
which is `True` exactly when an entry is present (a stored `slot_info`
dict is never empty).  Otherwise it compares `date` and `times` of
`new_slots[0]` with the stored entry and stores the new slot on change. -/
def slotsChanged (locationId : String) (newSlots : List SlotInfo) (t : SeenTable) :
    Bool × SeenTable :=
  match newSlots with
  | [] => ((lookupTable locationId t).isSome, t)
  | newSlot :: _ =>
    match lookupTable locationId t with
    | none => (true, insertTable locationId newSlot t)
    | some lastSlot =>
      if newSlot.date ≠ lastSlot.date ∨ newSlot.times ≠ lastSlot.times then
        (true, insertTable locationId newSlot t)
      else (false, t)

/-! ## Poll sweep: `GlobalEntrySlotChecker.check_slots`

HTTP is modelled by scripts: `_make_request` consumes the head of a list
of `Option Response` (`none` is the transport-failure path that returns
`None`), `_refresh_session` consumes the head of a list of booleans.  The
sweep state also counts how many fetches and refreshes were performed. -/

structure Response where
  status : Nat
  body : List RawSlot
deriving DecidableEq

structure CycleState where
  table : SeenTable
  collected : List SlotInfo
  fetchCount : Nat
  refreshCount : Nat
  fetchScript : List (Option Response)
  refreshScript : List Bool
deriving DecidableEq

def takeFetch : List (Option Response) → Option Response × List (Option Response)
  | [] => (none, [])
  | r :: rest => (r, rest)

def takeRefresh : List Bool → Bool × List Bool
  | [] => (false, [])
  | b :: rest => (b, rest)

/-- The 200-handling of `check_slots`: process the body, and only when the
processed list is non-empty call `_slots_changed` (whose table update is
kept either way) and extend `available_slots` on change. -/
def handle200 (locationId : String) (body : List RawSlot) (st : CycleState) : CycleState :=
  let processed := processSlots body locationId
  if processed = [] then st
  else
    let r := slotsChanged locationId processed st.table
    if r.1 then { st with table := r.2, collected := st.collected ++ processed }
    else { st with table := r.2 }

/-- The per-location body of the `for location_id in self.location_ids`
loop of `check_slots`: fetch; on `None` continue; on 200 handle the body;
on 403 refresh once and, only if the refresh succeeded, retry the fetch
once, handling only a 200 retry; any other status is logged and the
location is skipped. -/
def checkLocation (locationId : String) (st : CycleState) : CycleState :=
  let f := takeFetch st.fetchScript
  let st := { st with fetchScript := f.2, fetchCount := st.fetchCount + 1 }
  match f.1 with
  | none => st
  | some resp =>
    if resp.status = 200 then handle200 locationId resp.body st
    else if resp.status = 403 then
      let rf := takeRefresh st.refreshScript
      let st := { st with refreshScript := rf.2, refreshCount := st.refreshCount + 1 }
      if rf.1 then
        let f2 := takeFetch st.fetchScript
        let st := { st with fetchScript := f2.2, fetchCount := st.fetchCount + 1 }
        match f2.1 with
        | some resp2 => if resp2.status = 200 then handle200 locationId resp2.body st else st
        | none => st
      else st
    else st

/-- `GlobalEntrySlotChecker.check_slots`: refresh the session once up
front and return `[]` immediately when that fails; otherwise run the
per-location loop over all configured locations. -/
def checkSlots (locationIds : List String) (fetchScript : List (Option Response))
    (refreshScript : List Bool) (table : SeenTable) : CycleState :=
  let r := takeRefresh refreshScript
  let st0 : CycleState :=
    { table := table, collected := [], fetchCount := 0, refreshCount := 1,
      fetchScript := fetchScript, refreshScript := r.2 }
  if r.1 then locationIds.foldl (fun st loc => checkLocation loc st) st0
  else st0

/-! ## Configuration: `config.load_config` -/

/-- Python `s.split(sep)` with an explicit one-character separator: always
returns at least one (possibly empty) piece, so `''.split(',') == ['']`. -/
def splitChars (sep : Char) : List Char → List (List Char)
  | [] => [[]]
  | c :: cs =>
    let rest := splitChars sep cs
    if c = sep then [] :: rest
    else
      match rest with
      | [] => [[c]]
      | g :: gs => (c :: g) :: gs

def pySplit (sep : Char) (s : String) : List String :=
  (splitChars sep s.data).map fun l => String.mk l

/-- Python `str.strip()`: drop leading and trailing whitespace. -/
def stripStr (s : String) : String :=
  String.mk (((s.data.dropWhile Char.isWhitespace).reverse.dropWhile Char.isWhitespace).reverse)

/-- The config dict built by `load_config`. -/
structure Config where
  LOCATION_IDS : List String
  DATE_START : String
  DATE_END : String
  CHECK_INTERVAL : Nat
  NTFY_TOPIC : String
deriving DecidableEq

/-- `now.strftime('%Y-%m-%d')` of a civil day count. -/
def formatDay (n : Nat) : String :=
  let c := civilFromDays n
  pad4 c.1 ++ "-" ++ pad2 c.2.1 ++ "-" ++ pad2 c.2.2

/-- Decimal parse backing Python `int(...)` on the interval variable
(`ValueError`, i.e. `none`, on anything not all digits). -/
def parseDecNat (s : String) : Option Nat :=
  if s.data ≠ [] ∧ s.data.all Char.isDigit then
    some (s.data.foldl (fun acc c => acc * 10 + (c.toNat - 48)) 0)
  else none

/-- `config.load_config`, with the environment passed explicitly
(`none` = variable unset) and `datetime.now()` as a civil day count:
split `LOCATION_IDS` (defaulting to `'14321'`) on commas, strip each
piece, compute the date window `[today, today + 365 days]`, and raise
`ValueError` when the resulting location list is empty. -/
def loadConfig (locEnv intervalEnv topicEnv : Option String) (nowDays : Nat) :
    Except String Config :=
  let locationIds := locEnv.getD "14321"
  let ids := (pySplit ',' locationIds).map stripStr
  match parseDecNat (intervalEnv.getD "900") with
  | none => .error "invalid literal for int()"
  | some interval =>
    let cfg : Config :=
      { LOCATION_IDS := ids, DATE_START := formatDay nowDays,
        DATE_END := formatDay (nowDays + 365), CHECK_INTERVAL := interval,
        NTFY_TOPIC := topicEnv.getD "vu_alert" }
    if cfg.LOCATION_IDS = [] then
      .error "LOCATION_IDS environment variable is empty or invalid"
    else .ok cfg

/-! ## Poll loop notifications: the cycle body of `main.main`

Each `Notifier.send_notification` call performs exactly one HTTP POST to
`ntfy.sh`; the cycle body of the `while True` loop calls it exactly once:
with the consolidated slots message when `available_slots` is non-empty,
and with a "No Slot Available" message otherwise. -/

def joinWith (sep : String) : List String → String
  | [] => ""
  | [x] => x
  | x :: y :: xs => x ++ sep ++ joinWith sep (y :: xs)

/-- The consolidated multi-slot message built by `main`. -/
def buildSlotsMessage (slots : List SlotInfo) : String :=
  slots.foldl
    (fun acc s =>
      acc ++ "Location: " ++ s.location_name ++ "\n" ++
      "Date: " ++ s.date ++ "\n" ++
      "Available times (EST):\n" ++
      joinWith "\n" (s.times.map (fun tm => "- " ++ tm)) ++ "\n\n")
    "🎉 Global Entry Slots Available!\n\n"

/-- The (message, title) pairs POSTed during one cycle of `main`'s loop,
given the cycle's `available_slots`. -/
def cycleNotifications (available : List SlotInfo) (locationId : String)
    (interval : Nat) : List (String × String) :=
  if available ≠ [] then
    [(buildSlotsMessage available, "Global Entry Slot Available")]
  else
    [("No appointments currently available at " ++ locationId ++ "\n" ++
      "Will check again in " ++ toString interval ++ " seconds.",
      "No Slot Available")]

/-! ## Helper lemmas -/

theorem lookupTable_insertTable_self (k : String) (v : SlotInfo) (t : SeenTable) :
    lookupTable k (insertTable k v t) = some v := by
  induction t with
  | nil => simp [insertTable, lookupTable]
  | cons p rest ih =>
    obtain ⟨k', v'⟩ := p
    by_cases h : k' = k
    · simp [insertTable, lookupTable, h]
    · simp [insertTable, lookupTable, h, ih]

theorem lookupTable_insertTable_ne (k loc : String) (v : SlotInfo) (t : SeenTable)
    (h : loc ≠ k) : lookupTable k (insertTable loc v t) = lookupTable k t := by
  induction t with
  | nil => simp [insertTable, lookupTable, h]
  | cons p rest ih =>
    obtain ⟨k', v'⟩ := p
    by_cases h2 : k' = loc
    · subst h2; simp [insertTable, lookupTable, h]
    · simp [insertTable, lookupTable, h2, ih]

theorem lookupTable_insertTable_isSome (k loc : String) (v : SlotInfo) (t : SeenTable)
    (h : (lookupTable k t).isSome = true) :
    (lookupTable k (insertTable loc v t)).isSome = true := by
  by_cases he : loc = k
  · subst he; simp [lookupTable_insertTable_self]
  · simp [lookupTable_insertTable_ne k loc v t he, h]

theorem handle200_preserves (locationId : String) (body : List RawSlot) (st : CycleState) :
    (handle200 locationId body st).fetchCount = st.fetchCount ∧
    (handle200 locationId body st).refreshCount = st.refreshCount ∧
    (handle200 locationId body st).fetchScript = st.fetchScript ∧
    (handle200 locationId body st).refreshScript = st.refreshScript := by
  unfold handle200
  by_cases h : processSlots body locationId = []
  · simp [h]
  · by_cases h2 : (slotsChanged locationId (processSlots body locationId) st.table).1 = true <;>
      simp [h, h2]

theorem splitChars_ne_nil (sep : Char) (l : List Char) : splitChars sep l ≠ [] := by
  cases l with
  | nil => simp [splitChars]
  | cons c cs =>
    unfold splitChars
    by_cases h : c = sep
    · simp [h]
    · simp [h]
      cases splitChars sep cs <;> simp

/-- Concrete slot stored by the change-detector examples. -/
def exSlotA : SlotInfo :=
  { location := "14321", date := "2025-02-14", times := ["05:00 AM EST"],
    location_name := "Charlotte-Douglas International Airport" }

/-- `exSlotA` with one additional time on the same date. -/
def exSlotB : SlotInfo :=
  { exSlotA with times := ["05:00 AM EST", "06:00 AM EST"] }

/-! ## Claim theorems -/

/-- Claim C1: change detection per location.  The first-ever non-empty
observation for a location reports changed = true and is stored in the
last-seen table; a subsequent observation identical to the stored one
(same date, same times sequence, same order) reports changed = false; a
same-date observation whose times sequence contains one additional time
reports changed = true. -/
theorem slots_changed_first_identical_added (loc : String) (t : SeenTable)
    (s s' : SlotInfo) (obs obs' : List SlotInfo)
    (hnone : lookupTable loc t = none) :
    slotsChanged loc (s :: obs) t = (true, insertTable loc s t) ∧
    slotsChanged loc (s :: obs) (insertTable loc s t) = (false, insertTable loc s t) ∧
    (∀ pre x post, s'.date = s.date → s'.times = pre ++ x :: post →
      s.times = pre ++ post →
      (slotsChanged loc (s' :: obs') (insertTable loc s t)).1 = true) := by
  refine ⟨?_, ?_, ?_⟩
  · simp [slotsChanged, hnone]
  · simp [slotsChanged, lookupTable_insertTable_self]
  · intro pre x post hd ht hst
    have hne : s'.times ≠ s.times := by
      intro he
      have hlen := congrArg List.length he
      rw [ht, hst] at hlen
      simp at hlen
    simp [slotsChanged, lookupTable_insertTable_self, hd, hne]

/-- Witness for C1 at location 14321 starting from an empty table, adding
the time 06:00 AM EST to the stored 05:00 AM EST observation. -/
theorem slots_changed_first_identical_added_w :
    slotsChanged "14321" [exSlotA] [] = (true, insertTable "14321" exSlotA []) ∧
    slotsChanged "14321" [exSlotA] (insertTable "14321" exSlotA []) =
      (false, insertTable "14321" exSlotA []) ∧
    (slotsChanged "14321" [exSlotB] (insertTable "14321" exSlotA [])).1 = true :=
  ⟨(slots_changed_first_identical_added "14321" [] exSlotA exSlotB [] [] (by decide)).1,
   (slots_changed_first_identical_added "14321" [] exSlotA exSlotB [] [] (by decide)).2.1,
   (slots_changed_first_identical_added "14321" [] exSlotA exSlotB [] [] (by decide)).2.2
     ["05:00 AM EST"] "06:00 AM EST" [] (by decide) (by decide) (by decide)⟩

/-- Claim C4 counterexample: with an empty current observation and a prior
entry present, `_slots_changed` returns `bool(last_seen_slots.get(id))`,
i.e. true — not the "unchanged" the claim states (the stale entry is
retained). -/
theorem slots_changed_empty_prior_counterexample :
    slotsChanged "14321" [] [("14321", exSlotA)] = (true, [("14321", exSlotA)]) := by
  decide

/-- Claim C4 (amended): with an empty current observation and no prior
entry, `_slots_changed` reports no change; with an empty current
observation and a prior entry it returns true while leaving the stale
entry in place; and `check_slots` never reaches `_slots_changed` with an
empty observation, since an empty processed list leaves the cycle state
untouched. -/
theorem slots_changed_empty_observation (loc : String) (t : SeenTable) :
    (lookupTable loc t = none → slotsChanged loc [] t = (false, t)) ∧
    (∀ s, lookupTable loc t = some s → slotsChanged loc [] t = (true, t)) ∧
    (∀ body st, processSlots body loc = [] → handle200 loc body st = st) := by
  refine ⟨?_, ?_, ?_⟩
  · intro h; simp [slotsChanged, h]
  · intro s h; simp [slotsChanged, h]
  · intro body st h; simp [handle200, h]

/-- Witness for the amended C4: both empty-observation branches at
location 14321, and the orchestrator guard on an empty body. -/
theorem slots_changed_empty_observation_w :
    slotsChanged "14321" [] [] = (false, []) ∧
    slotsChanged "14321" [] [("14321", exSlotA)] = (true, [("14321", exSlotA)]) ∧
    handle200 "14321" []
      { table := [], collected := [], fetchCount := 0, refreshCount := 1,
        fetchScript := [], refreshScript := [] } =
      { table := [], collected := [], fetchCount := 0, refreshCount := 1,
        fetchScript := [], refreshScript := [] } :=
  ⟨(slots_changed_empty_observation "14321" []).1 (by decide),
   (slots_changed_empty_observation "14321" [("14321", exSlotA)]).2.1 exSlotA (by decide),
   (slots_changed_empty_observation "14321" []).2.2 []
     { table := [], collected := [], fetchCount := 0, refreshCount := 1,
       fetchScript := [], refreshScript := [] } (by decide)⟩

/-- Claim C10: the last-seen table's key set grows monotonically.  A call
of `_slots_changed` that returns false leaves the table unchanged, any
mutation of the table happens only on a call that returns true, and no
call ever removes a key. -/
theorem slots_changed_table_monotone (loc : String) (slots : List SlotInfo)
    (t : SeenTable) :
    ((slotsChanged loc slots t).1 = false → (slotsChanged loc slots t).2 = t) ∧
    ((slotsChanged loc slots t).2 ≠ t → (slotsChanged loc slots t).1 = true) ∧
    (∀ k, (lookupTable k t).isSome = true →
      (lookupTable k (slotsChanged loc slots t).2).isSome = true) := by
  rcases slots with _ | ⟨s, rest⟩
  · exact ⟨fun _ => rfl, fun h => absurd rfl h, fun k hk => hk⟩
  · cases h : lookupTable loc t with
    | none =>
      refine ⟨?_, ?_, ?_⟩
      · intro hfalse; simp [slotsChanged, h] at hfalse
      · intro _; simp [slotsChanged, h]
      · intro k hk
        simpa [slotsChanged, h] using lookupTable_insertTable_isSome k loc s t hk
    | some last =>
      by_cases hc : s.date ≠ last.date ∨ s.times ≠ last.times
      · refine ⟨?_, ?_, ?_⟩
        · intro hfalse; simp [slotsChanged, h, hc] at hfalse
        · intro _; simp [slotsChanged, h, hc]
        · intro k hk
          simpa [slotsChanged, h, hc] using lookupTable_insertTable_isSome k loc s t hk
      · refine ⟨fun _ => ?_, fun hne => ?_, fun k hk => ?_⟩
        · simp [slotsChanged, h, hc]
        · exact absurd (by simp [slotsChanged, h, hc]) hne
        · simpa [slotsChanged, h, hc] using hk

/-- Witness for C10: a false-returning call leaves a concrete table
unchanged, and an inserting call keeps the existing key present. -/
theorem slots_changed_table_monotone_w :
    (slotsChanged "14321" [exSlotA] [("14321", exSlotA)]).2 = [("14321", exSlotA)] ∧
    (lookupTable "14321" (slotsChanged "5140" [exSlotB] [("14321", exSlotA)]).2).isSome = true :=
  ⟨(slots_changed_table_monotone "14321" [exSlotA] [("14321", exSlotA)]).1 (by decide),
   (slots_changed_table_monotone "5140" [exSlotB] [("14321", exSlotA)]).2.2 "14321" (by decide)⟩

/-- Claim C6: malformed-record isolation.  A raw record whose parse raises
(for example one missing `startTimestamp`) is dropped, and the batch
normalizes exactly as if the bad record were absent — every sibling valid
record is still processed and the batch is never aborted. -/
theorem process_slots_drops_malformed (xs ys : List RawSlot) (bad : RawSlot)
    (locationId : String) (h : parseSlot bad = none) :
    processSlots (xs ++ bad :: ys) locationId = processSlots (xs ++ ys) locationId := by
  have hstep : groupStep ((xs.foldl groupStep [])) bad = xs.foldl groupStep [] := by
    simp [groupStep, h]
  unfold processSlots
  rw [List.foldl_append, List.foldl_append, List.foldl_cons, hstep]

/-- Witness for C6: a record with no `startTimestamp` between two valid
records is dropped and its siblings survive. -/
theorem process_slots_drops_malformed_w :
    processSlots
      [{ startTimestamp := some "2025-02-14T10:00",
         endTimestamp := some "2025-02-14T10:15", duration := some 15 },
       { startTimestamp := none, endTimestamp := none, duration := none },
       { startTimestamp := some "2025-02-14T11:00",
         endTimestamp := none, duration := none }] "14321" =
    processSlots
      [{ startTimestamp := some "2025-02-14T10:00",
         endTimestamp := some "2025-02-14T10:15", duration := some 15 },
       { startTimestamp := some "2025-02-14T11:00",
         endTimestamp := none, duration := none }] "14321" :=
  process_slots_drops_malformed
    [{ startTimestamp := some "2025-02-14T10:00",
       endTimestamp := some "2025-02-14T10:15", duration := some 15 }]
    [{ startTimestamp := some "2025-02-14T11:00",
       endTimestamp := none, duration := none }]
    { startTimestamp := none, endTimestamp := none, duration := none }
    "14321" (by decide)

/-- Claim C2: `_process_slots` formats times on the 12-hour clock and then
sorts the strings lexicographically, so the emitted times are NOT in
chronological order: 15:00 UTC (10:00 AM Eastern) and 18:00 UTC (01:00 PM
Eastern) on the same date come out as ["01:00 PM EST", "10:00 AM EST"],
placing 1 PM before 10 AM — contradicting the code's own comment
"Sort times chronologically". -/
theorem process_slots_lexicographic_not_chronological :
    processSlots
      [{ startTimestamp := some "2025-02-14T15:00",
         endTimestamp := some "2025-02-14T15:15", duration := some 15 },
       { startTimestamp := some "2025-02-14T18:00",
         endTimestamp := none, duration := none }] "5140" =
    [{ location := "5140", date := "2025-02-14",
       times := ["01:00 PM EST", "10:00 AM EST"],
       location_name := "JFK International Airport" }] := by
  decide

/-- Claim C3 counterexample: for start_timestamp 2025-02-14T10:00 the code
yields the time string "05:00 AM EST" (format `%I:%M %p EST`), not the
"05:00" the claim states. -/
theorem appointment_time_format_counterexample :
    Appointment.time
      { location_id := "14321", start_timestamp := "2025-02-14T10:00",
        end_timestamp := "2025-02-14T10:15", duration := 15 } =
      some "05:00 AM EST" ∧ ("05:00 AM EST" : String) ≠ "05:00" := by
  decide

/-- Claim C3 (amended): for every valid start_timestamp in format
YYYY-MM-DDTHH:MM treated as UTC, `Appointment.date` and `Appointment.time`
deterministically give the US Eastern local date and 12-hour time (they
depend only on the timestamp string and are defined whenever it parses);
the input 2025-02-14T10:00 yields date "2025-02-14" and time
"05:00 AM EST" (UTC-5, Eastern Standard Time). -/
theorem appointment_eastern_conversion :
    (∀ a b : Appointment, a.start_timestamp = b.start_timestamp →
      a.date = b.date ∧ a.time = b.time) ∧
    (∀ a : Appointment, (parseTimestamp a.start_timestamp).isSome = true →
      a.date.isSome = true ∧ a.time.isSome = true) ∧
    Appointment.date
      { location_id := "14321", start_timestamp := "2025-02-14T10:00",
        end_timestamp := "2025-02-14T10:15", duration := 15 } = some "2025-02-14" ∧
    Appointment.time
      { location_id := "14321", start_timestamp := "2025-02-14T10:00",
        end_timestamp := "2025-02-14T10:15", duration := 15 } = some "05:00 AM EST" := by
  refine ⟨?_, ?_, by decide, by decide⟩
  · intro a b h
    rw [Appointment.date, Appointment.time, Appointment.date, Appointment.time, h]
    exact ⟨rfl, rfl⟩
  · intro a h
    cases hp : parseTimestamp a.start_timestamp with
    | none => rw [hp] at h; simp at h
    | some p => simp [Appointment.date, Appointment.time, appointmentDateTime, hp]

/-- Witness for the amended C3: determinism and definedness applied to two
concrete appointments sharing the timestamp 2025-07-04T16:00 (a DST date,
exercising the UTC-4 branch). -/
theorem appointment_eastern_conversion_w :
    (Appointment.date { location_id := "5140", start_timestamp := "2025-07-04T16:00",
                        end_timestamp := "", duration := 15 } =
     Appointment.date { location_id := "5182", start_timestamp := "2025-07-04T16:00",
                        end_timestamp := "2025-07-04T16:15", duration := 30 }) ∧
    (Appointment.date { location_id := "5140", start_timestamp := "2025-07-04T16:00",
                        end_timestamp := "", duration := 15 }).isSome = true :=
  ⟨(appointment_eastern_conversion.1
      { location_id := "5140", start_timestamp := "2025-07-04T16:00",
        end_timestamp := "", duration := 15 }
      { location_id := "5182", start_timestamp := "2025-07-04T16:00",
        end_timestamp := "2025-07-04T16:15", duration := 30 } rfl).1,
   (appointment_eastern_conversion.2.1
      { location_id := "5140", start_timestamp := "2025-07-04T16:00",
        end_timestamp := "", duration := 15 } (by decide)).1⟩

/-- Claim C5: 403 recovery is bounded.  When the fetch for a location
returns HTTP 403, the per-location handler performs exactly one session
refresh; when that refresh succeeds it performs exactly one retried fetch
(none when the refresh fails); and when the retry is again a 403 the
location is skipped — nothing is collected, the last-seen table is
untouched, and no further refreshes or fetches are consumed.  A final
conjunct shows a complete single-location cycle with a double 403. -/
theorem check_location_403_bounded (locationId : String) (table : SeenTable)
    (col : List SlotInfo) (fc rc : Nat) (body body2 : List RawSlot)
    (r2 : Option Response) (rest : List (Option Response)) (brest : List Bool) :
    ((checkLocation locationId
        { table := table, collected := col, fetchCount := fc, refreshCount := rc,
          fetchScript := some { status := 403, body := body } :: r2 :: rest,
          refreshScript := true :: brest }).refreshCount = rc + 1 ∧
     (checkLocation locationId
        { table := table, collected := col, fetchCount := fc, refreshCount := rc,
          fetchScript := some { status := 403, body := body } :: r2 :: rest,
          refreshScript := true :: brest }).fetchCount = fc + 2) ∧
    (checkLocation locationId
        { table := table, collected := col, fetchCount := fc, refreshCount := rc,
          fetchScript := some { status := 403, body := body } :: r2 :: rest,
          refreshScript := false :: brest } =
      { table := table, collected := col, fetchCount := fc + 1, refreshCount := rc + 1,
        fetchScript := r2 :: rest, refreshScript := brest }) ∧
    (checkLocation locationId
        { table := table, collected := col, fetchCount := fc, refreshCount := rc,
          fetchScript := some { status := 403, body := body } ::
            some { status := 403, body := body2 } :: rest,
          refreshScript := true :: brest } =
      { table := table, collected := col, fetchCount := fc + 2, refreshCount := rc + 1,
        fetchScript := rest, refreshScript := brest }) ∧
    (checkSlots [locationId]
        (some { status := 403, body := body } ::
          some { status := 403, body := body2 } :: rest)
        (true :: true :: brest) table =
      { table := table, collected := [], fetchCount := 2, refreshCount := 2,
        fetchScript := rest, refreshScript := brest }) := by
  refine ⟨⟨?_, ?_⟩, rfl, rfl, rfl⟩ <;>
    cases r2 with
    | none => rfl
    | some resp2 =>
      by_cases h : resp2.status = 200 <;>
        simp [checkLocation, takeFetch, takeRefresh, h, handle200_preserves]

/-- Claim C9: if the cycle-initial session refresh fails, `check_slots`
returns an empty list immediately — no fetch is issued, no per-location
refresh is attempted beyond the failed one, and `last_seen_slots` is left
completely unchanged. -/
theorem check_slots_refresh_failure_aborts (locationIds : List String)
    (fetchScript : List (Option Response)) (brest : List Bool) (table : SeenTable) :
    checkSlots locationIds fetchScript (false :: brest) table =
      { table := table, collected := [], fetchCount := 0, refreshCount := 1,
        fetchScript := fetchScript, refreshScript := brest } := rfl

/-- Claim C7 counterexample: a cycle whose report is empty still performs
a notification POST — the "No Slot Available" message — so it is not true
that an empty cycle produces no POST. -/
theorem cycle_notifications_empty_report_posts :
    cycleNotifications [] "14321" 300 =
      [("No appointments currently available at 14321\nWill check again in 300 seconds.",
        "No Slot Available")] := by
  decide

/-- Claim C7 (amended): every polling cycle issues exactly one
notification POST — with the consolidated slots message titled
"Global Entry Slot Available" when the report is non-empty, and with a
"No Slot Available" status message when the report is empty. -/
theorem cycle_notifications_exactly_one (available : List SlotInfo)
    (locationId : String) (interval : Nat) :
    (cycleNotifications available locationId interval).length = 1 ∧
    (available = [] →
      (cycleNotifications available locationId interval).map Prod.snd =
        ["No Slot Available"]) ∧
    (available ≠ [] →
      (cycleNotifications available locationId interval).map Prod.snd =
        ["Global Entry Slot Available"]) := by
  by_cases h : available = [] <;> simp [cycleNotifications, h]

/-- Witness for the amended C7: the empty report and a one-slot report
each produce exactly one POST with the stated title. -/
theorem cycle_notifications_exactly_one_w :
    (cycleNotifications [] "14321" 300).length = 1 ∧
    (cycleNotifications [] "14321" 300).map Prod.snd = ["No Slot Available"] ∧
    (cycleNotifications [exSlotA] "14321" 300).map Prod.snd =
      ["Global Entry Slot Available"] :=
  ⟨(cycle_notifications_exactly_one [] "14321" 300).1,
   (cycle_notifications_exactly_one [] "14321" 300).2.1 rfl,
   (cycle_notifications_exactly_one [exSlotA] "14321" 300).2.2 (by decide)⟩

/-- Claim C8: setting LOCATION_IDS to the empty string does NOT abort
startup.  Python's `''.split(',')` is `['']`, a non-empty (truthy) list,
so the `if not config['LOCATION_IDS']` validation never fires and
`load_config` returns a config whose location list is `[""]`; indeed the
location validation is unreachable for every environment value. -/
theorem load_config_empty_env_no_error :
    loadConfig (some "") none none (daysFromCivil 2025 1 1) =
      .ok { LOCATION_IDS := [""], DATE_START := "2025-01-01",
            DATE_END := "2026-01-01", CHECK_INTERVAL := 900,
            NTFY_TOPIC := "vu_alert" } ∧
    ∀ locEnv topicEnv : Option String, ∀ nowDays : Nat, ∃ cfg : Config,
      loadConfig locEnv none topicEnv nowDays = .ok cfg := by
  refine ⟨rfl, ?_⟩
  intro locEnv topicEnv nowDays
  have hne : ((pySplit ',' (locEnv.getD "14321")).map stripStr) ≠ [] := by
    intro hmap
    exact splitChars_ne_nil ',' (locEnv.getD "14321").data
      (by simpa [pySplit] using hmap)
  have h900 : parseDecNat "900" = some 900 := by decide
  refine ⟨{ LOCATION_IDS := (pySplit ',' (locEnv.getD "14321")).map stripStr,
            DATE_START := formatDay nowDays, DATE_END := formatDay (nowDays + 365),
            CHECK_INTERVAL := 900, NTFY_TOPIC := topicEnv.getD "vu_alert" }, ?_⟩
  simp [loadConfig, h900, hne]
